import Mathlib

/-!
Shallow embedding of `ssh_generate.py` (CircleCI github-ssh-regeneration).

The script is a single linear workflow: an HTTP wrapper (`Response`,
`request`) and a key-rotation loop inside `main`.  Python JSON values are
modelled by the inductive `Json`; the dynamic operations the script applies
to them (`[...]` subscripting, `len`, truthiness, `.startswith`) are
modelled with their Python exception behaviour made explicit via `Except`.

External library calls are modelled as parameters:
* `json.loads` (Python stdlib) is a parameter `loads : String → Option Json`
  (`none` models a raised `json.JSONDecodeError`);
* `urllib.request.urlopen` is a parameter of type `HttpOutcome` describing
  what the one network call would return (success or `urllib.error.HTTPError`).
Side effects (prints, HTTP calls, file appends) are collected in a trace of
`Effect`s, and the control outcome of each loop iteration is a `StepResult`.
-/

/-- A Python value decoded from JSON (`json.loads` output).  Numbers are
restricted to integers; the script never produces or inspects floats. -/
inductive Json where
  | null
  | bool (b : Bool)
  | num (n : Int)
  | str (s : String)
  | arr (elems : List Json)
  | obj (fields : List (String × Json))

/-- The Python exceptions the dynamic operations below can raise. -/
inductive PyExn where
  | typeError
  | keyError
  | indexError
  | attributeError
deriving DecidableEq

/-- Python truthiness (`if v:`) of a JSON-decoded value. -/
def pyTruthy : Json → Bool
  | .null => false
  | .bool b => b
  | .num n => n != 0
  | .str s => !s.data.isEmpty
  | .arr elems => !elems.isEmpty
  | .obj fields => !fields.isEmpty

/-- Python `v[k]` for a string key `k`: key lookup on a dict, `KeyError` when
the key is absent, `TypeError` on any non-dict value. -/
def pyGetItem (v : Json) (k : String) : Except PyExn Json :=
  match v with
  | .obj fields =>
    match fields.lookup k with
    | some x => .ok x
    | none => .error .keyError
  | _ => .error .typeError

/-- Python `len(v)`: length of a list, string (in characters) or dict;
`TypeError` on `None`, booleans and numbers. -/
def pyLen (v : Json) : Except PyExn Nat :=
  match v with
  | .arr elems => .ok elems.length
  | .str s => .ok s.data.length
  | .obj fields => .ok fields.length
  | _ => .error .typeError

/-- Python `v[0]`: head of a list (`IndexError` when empty), one-character
string for a string, `KeyError` for a dict (integer key miss), `TypeError`
otherwise. -/
def pyIndexZero (v : Json) : Except PyExn Json :=
  match v with
  | .arr [] => .error .indexError
  | .arr (x :: _) => .ok x
  | .str s =>
    match s.data with
    | [] => .error .indexError
    | c :: _ => .ok (.str (String.mk [c]))
  | .obj _ => .error .keyError
  | _ => .error .typeError

/-- Python `str.startswith`, modelled on the underlying character lists. -/
def strStartsWith (s pre : String) : Bool :=
  pre.data.isPrefixOf s.data

/-- Python `v.startswith(pre)`: defined on strings, `AttributeError` on any
other JSON-decoded value. -/
def pyStartswith (v : Json) (pre : String) : Except PyExn Bool :=
  match v with
  | .str s => .ok (strStartsWith s pre)
  | _ => .error .attributeError

/-- Python `v == s` for a string literal `s`: only a string with the same
characters compares equal; any other value is simply unequal. -/
def pyEqStr (v : Json) (s : String) : Bool :=
  match v with
  | .str t => t = s
  | _ => false

/-- Python `str.casefold`, restricted to ASCII (ASCII is all the script ever
compares; on ASCII `casefold` coincides with lower-casing). -/
def pyCasefold (s : String) : String := String.mk (s.data.map Char.toLower)

/-- Python `str.upper`, restricted to ASCII. -/
def pyUpper (s : String) : String := String.mk (s.data.map Char.toUpper)

/-- `Response` (ssh_generate.py:15-19): the named tuple the HTTP wrapper
returns.  Headers (an `email.message.Message`) are modelled as an
association list. -/
structure Response where
  body : String
  headers : List (String × String)
  status : Nat
  error_count : Nat := 0
deriving DecidableEq

/-- `Response.json` (ssh_generate.py:21-32): decode the body as JSON,
returning the empty string when decoding raises `json.JSONDecodeError`.
`json.loads` is stdlib, passed as the parameter `loads`. -/
def Response.json (loads : String → Option Json) (r : Response) : Json :=
  match loads r.body with
  | some v => v
  | none => .str ""

/-- Uppercase hexadecimal digit, as Python's `quote` emits. -/
def hexUpper (n : Nat) : Char :=
  if n < 10 then Char.ofNat (48 + n) else Char.ofNat (55 + n)

/-- `%XX` percent-encoding of one byte. -/
def percentByte (b : UInt8) : String :=
  String.mk ['%', hexUpper (b.toNat / 16), hexUpper (b.toNat % 16)]

/-- Characters `urllib.parse.quote` never escapes (`ALWAYS_SAFE`):
ASCII letters, digits and `_ . - ~`. -/
def alwaysSafeChar (c : Char) : Bool :=
  c.isAlpha || c.isDigit || c = '_' || c = '.' || c = '-' || c = '~'

/-- `urllib.parse.quote_plus(s, safe)`: spaces become `+`, safe and
always-safe characters pass through, everything else is percent-encoded
byte-by-byte in UTF-8. -/
def quotePlus (safe : String) (s : String) : String :=
  s.toList.foldl
    (fun acc c =>
      acc ++ (if c = ' ' then "+"
              else if alwaysSafeChar c || safe.contains c then String.singleton c
              else String.join (((String.singleton c).toUTF8.toList.map percentByte))))
    ""

/-- One `k=v` pair of an `urlencode` output. -/
def encodePair (safe : String) (kv : String × String) : String :=
  quotePlus safe kv.1 ++ "=" ++ quotePlus safe kv.2

/-- `urllib.parse.urlencode(query, ...)` for string-valued mappings (the only
values this script ever passes; with `doseq=True` string values are still
emitted as single `k=v` pairs). -/
def urlencode (safe : String) (query : List (String × String)) : String :=
  String.intercalate "&" (query.map (encodePair safe))

/-- `json.dumps` of a flat string-to-string dict, as used for the request
body (string escaping omitted: the script only ever dumps plain ASCII
identifiers containing no quotes or backslashes). -/
def jsonDumps (d : List (String × String)) : String :=
  "\x7b" ++ String.intercalate ", "
    (d.map (fun kv => "\"" ++ kv.1 ++ "\": \"" ++ kv.2 ++ "\"")) ++ "\x7d"

/-- Python `{**a, **b}`: keys of `a` in order (values overridden by `b` where
both define the key), then keys of `b` absent from `a`, in order.  Dicts are
modelled as association lists with pairwise-distinct keys. -/
def dictMerge (a b : List (String × String)) : List (String × String) :=
  (a.map fun kv => (kv.1, ((b.lookup kv.1).getD kv.2)))
    ++ b.filter (fun kv => (a.lookup kv.1).isNone)

/-- Python `d[k] = v` on a dict: overwrite in place when the key exists,
append otherwise. -/
def dictSet (d : List (String × String)) (k v : String) : List (String × String) :=
  if (d.lookup k).isSome then d.map (fun kv => if kv.1 = k then (k, v) else kv)
  else d ++ [(k, v)]

/-- What the single `urllib.request.urlopen` call would yield: a successful
response (with its body already charset-decoded to a string) or a raised
`urllib.error.HTTPError`.  Non-HTTP transport faults are out of scope, as in
the source, where they propagate unhandled. -/
inductive HttpOutcome where
  | success (status : Nat) (headers : List (String × String)) (body : String)
  | httpError (code : Nat) (reason : String) (headers : List (String × String))

/-- The `urllib.request.Request` the wrapper builds: final URL (query string
appended), optional encoded body text (`none` = no body), headers, method. -/
structure BuiltRequest where
  url : String
  request_data : Option String
  headers : List (String × String)
  method : String

/-- ssh_generate.py:46-69: how `request` assembles the
`urllib.request.Request` once the scheme guard has passed: upper-case the
method, default the `Accept` header, fold `data` into the query parameters
for `GET`, append the URL-encoded query string, and encode the body (JSON or
form) for non-`GET` data. -/
def buildRequest (url : String) (data params headers : List (String × String))
    (method : String) (data_as_json : Bool) : BuiltRequest :=
  let method := pyUpper method
  let headers := dictMerge [("Accept", "application/json")] headers
  let pd : List (String × String) × List (String × String) :=
    if method = "GET" then (dictMerge params data, []) else (params, data)
  let params := pd.1
  let data := pd.2
  let url := if !params.isEmpty then url ++ "?" ++ urlencode "/" params else url
  let bh : Option String × List (String × String) :=
    if !data.isEmpty then
      if data_as_json then
        (some (jsonDumps data),
         dictSet headers "Content-Type" "application/json; charset=UTF-8")
      else (some (urlencode "" data), headers)
    else (none, headers)
  { url := url, request_data := bh.1, headers := bh.2, method := method }

/-- ssh_generate.py:71-88: the `Response` built from the network outcome —
decoded body/headers/status with a zero error counter on success; the
error's reason as body, its headers and code, and the caller's counter plus
one when `urlopen` raised `HTTPError`. -/
def netResponse (error_count : Nat) : HttpOutcome → Response
  | .success status hs body =>
    { body := body, headers := hs, status := status, error_count := 0 }
  | .httpError code reason hs =>
    { body := reason, headers := hs, status := code,
      error_count := error_count + 1 }

/-- `request` (ssh_generate.py:35-88).  Returns the raised `URLError` message
on the scheme guard, otherwise the built request together with the `Response`
produced from the network outcome `net`.  Dicts default to `{}` by passing
`[]`. -/
def request (url : String) (data params headers : List (String × String))
    (method : String) (data_as_json : Bool) (error_count : Nat)
    (net : HttpOutcome) : Except String (BuiltRequest × Response) :=
  if !strStartsWith (pyCasefold url) "http" then
    .error "Incorrect and possibly insecure protocol in url"
  else
    .ok (buildRequest url data params headers method data_as_json,
         netResponse error_count net)

/-- `convert_vcs` (ssh_generate.py:91-101): canonicalise the VCS argument or
raise for anything unrecognised. -/
def convert_vcs (vcs_input : String) : Except String String :=
  if vcs_input = "gh" then .ok "github"
  else if vcs_input = "bb" then .ok "bitbucket"
  else if vcs_input = "github" then .ok "github"
  else if vcs_input = "bitbucket" then .ok "bitbucket"
  else .error ("invalid vcs provided: " ++ vcs_input)

/-- Split a character list at every occurrence of `sep`, keeping empty
segments; always returns at least one segment, like Python `str.split` with
an explicit separator. -/
def splitCharAux (sep : Char) : List Char → List (List Char)
  | [] => [[]]
  | c :: rest =>
    match splitCharAux sep rest with
    | [] => [[]]
    | seg :: segs => if c = sep then [] :: seg :: segs else (c :: seg) :: segs

/-- Python `s.split("/")` (the only split the script performs). -/
def pySplitSlash (s : String) : List String :=
  (splitCharAux '/' s.data).map String.mk

/-- Python `xs[-i]` (for `i ≥ 1`) on a list of strings: counts from the end,
`IndexError` when the list is shorter than `i`. -/
def pyNegIndex (xs : List String) (i : Nat) : Except PyExn String :=
  if h : 1 ≤ i ∧ i ≤ xs.length then
    .ok (xs.get ⟨xs.length - i, by omega⟩)
  else .error .indexError

/-- One entry of the `projects` array of the settings response, restricted to
the two fields `main` reads (`project['vcs_url']`, `project['followers']`). -/
structure ProjectEntry where
  vcs_url : String
  followers : List Json

/-- The project filter loop of `main` (ssh_generate.py:129-138): split each
`vcs_url` on `/`, take the last segment as project name and the second-to-last
as organisation name, and keep the name when the project has followers and the
organisation matches exactly. -/
def filterProjects (ORG : String) : List ProjectEntry → Except PyExn (List String)
  | [] => .ok []
  | p :: rest => do
    let vcs_url_parts := pySplitSlash p.vcs_url
    let project_name ← pyNegIndex vcs_url_parts 1
    let org_name ← pyNegIndex vcs_url_parts 2
    let tail ← filterProjects ORG rest
    pure (if p.followers.length > 0 && org_name = ORG
          then project_name :: tail else tail)

/-- One checkout key as the workflow reads it: the three JSON fields the code
subscripts. -/
structure CheckoutKey where
  preferred : Bool
  public_key : String
  type : String

/-- The JSON object the provider returns for one checkout key (restricted to
the subscripted fields). -/
def keyJson (k : CheckoutKey) : Json :=
  .obj [("type", .str k.type), ("preferred", .bool k.preferred),
        ("public_key", .str k.public_key)]

/-- A well-formed checkout-key listing body: `{"items": [ ...keys... ]}`. -/
def keysListJson (ks : List CheckoutKey) : Json :=
  .obj [("items", .arr (ks.map keyJson))]

/-- What an old-keys / new-keys log line carries (text serialisation of the
Python values via `str(...)` is abstracted to the values themselves). -/
inductive LogContent where
  | rawResponse (v : Json)
  | newKeyLine (project : String) (v : Json)

/-- One observable side effect of the workflow, in program order. -/
inductive Effect where
  | httpReq (method : String) (url : String) (payload : Option (List (String × String)))
  | printLine (s : String)
  | fileAppend (fileName : String) (content : LogContent)

/-- The structured content of each `Exception` message `main` can raise. -/
inductive Fatal where
  | errRetrievingProjects (resp : Response) (url : String)
  | noProjectsFound
  | projectNotFound (name : String)
  | errGettingKeys (resp : Response) (url : String)
  | errCreatingKey (resp : Response) (url : String)

/-- Control outcome of one iteration of the per-project loop. -/
inductive StepResult where
  | next
  | fatal (f : Fatal)
  | exn (e : PyExn)

/-- The condition of ssh_generate.py:163,
`key_info['preferred'] and key_info['public_key'].startswith('ssh-rsa')`,
with Python's short-circuit `and` (the second subscript is only evaluated
when the first operand is truthy). -/
def preferredRsaCheck (key_info : Json) : Except PyExn Bool :=
  match pyGetItem key_info "preferred" with
  | .error e => .error e
  | .ok pref =>
    if pyTruthy pref then
      match pyGetItem key_info "public_key" with
      | .error e => .error e
      | .ok pk => pyStartswith pk "ssh-rsa"
    else .ok false

/-- The checkout-key URL built at ssh_generate.py:149 and 183 (both format
calls produce the same string). -/
def checkoutKeyUrl (VCS ORG project : String) : String :=
  "https://circleci.com/api/v2/project/" ++ VCS ++ "/" ++ ORG ++ "/"
    ++ project ++ "/checkout-key"

/-- ssh_generate.py:164-195: the body of the `if` taken once the preferred
key is recognised as `ssh-rsa`.  `parsedKeys` is the decoded key-listing
response (the variable `ssh_keys_resp` after line 154), `key_info` the first
key, and `createResp` the response the POST would receive. -/
def doRotation (ORG VCS project : String) (loads : String → Option Json)
    (parsedKeys key_info : Json) (createResp : Response) :
    List Effect × StepResult :=
  let found := Effect.printLine ("ssh-rsa key found as prefered ssh key for " ++ project)
  match pyGetItem key_info "type" with
  | .error e => ([found], .exn e)
  | .ok ssh_key_type =>
    let payload : List (String × String) :=
      if pyEqStr ssh_key_type "github-user-key" then [("type", "user-key")]
      else [("type", "deploy-key")]
    let checkout_key_url := checkoutKeyUrl VCS ORG project
    let effs : List Effect :=
      [found,
       .printLine (project ++ " old preffered key: old_keys_" ++ ORG ++ ".txt"),
       .fileAppend ("old_keys_" ++ ORG ++ ".txt") (.rawResponse parsedKeys),
       .printLine ("Creating key for " ++ project ++ " logging new key to new_keys_"
                   ++ ORG ++ ".txt"),
       .httpReq "POST" checkout_key_url (some payload)]
    if createResp.status = 403 then
      (effs ++ [.printLine ("skipping project: " ++ project
                ++ " as unable to create new key. url: " ++ checkout_key_url)],
       .next)
    else if createResp.error_count > 0 then
      (effs, .fatal (.errCreatingKey createResp checkout_key_url))
    else
      (effs ++ [.fileAppend ("new_keys_" ++ ORG ++ ".txt")
                  (.newKeyLine project (Response.json loads createResp))],
       .next)

/-- ssh_generate.py:147-197: one iteration of the per-project loop.
`listResp` is the response to the checkout-key GET; `createResp` the response
the key-creation POST would receive, were it reached. -/
def processProject (ORG VCS project : String) (loads : String → Option Json)
    (listResp createResp : Response) : List Effect × StepResult :=
  let ssh_keys_url := checkoutKeyUrl VCS ORG project
  let getEff := Effect.httpReq "GET" ssh_keys_url none
  if listResp.error_count > 0 then
    ([getEff], .fatal (.errGettingKeys listResp ssh_keys_url))
  else
    let parsed := Response.json loads listResp
    match pyGetItem parsed "items" with
    | .error e => ([getEff], .exn e)
    | .ok key_items =>
      match pyLen key_items with
      | .error e => ([getEff], .exn e)
      | .ok n =>
        if n = 0 then ([getEff], .next)
        else
          match pyIndexZero key_items with
          | .error e => ([getEff], .exn e)
          | .ok key_info =>
            match preferredRsaCheck key_info with
            | .error e => ([getEff], .exn e)
            | .ok true =>
              let rot := doRotation ORG VCS project loads parsed key_info createResp
              (getEff :: rot.1, rot.2)
            | .ok false =>
              ([getEff,
                .printLine (project ++ " prefered key is not ssh-rsa, no action taken.")],
               .next)

/-- Final outcome of the whole per-project loop. -/
inductive RunResult where
  | finished
  | fatalError (f : Fatal)
  | uncaughtExn (e : PyExn)

/-- The per-project loop of `main` over the filtered project list: each item
supplies a project name with the responses its GET and (potential) POST
would receive.  A fatal error or uncaught Python exception aborts the run;
`StepResult.next` moves on to the remaining projects. -/
def mainLoop (ORG VCS : String) (loads : String → Option Json) :
    List (String × Response × Response) → List Effect × RunResult
  | [] => ([], .finished)
  | (project, listResp, createResp) :: rest =>
    match processProject ORG VCS project loads listResp createResp with
    | (effs, .next) =>
      let tail := mainLoop ORG VCS loads rest
      (effs ++ tail.1, tail.2)
    | (effs, .fatal f) => (effs, .fatalError f)
    | (effs, .exn e) => (effs, .uncaughtExn e)

/-- Spec-side notion for the URL guard: the URL begins with an HTTP or HTTPS
scheme, compared case-insensitively. -/
def startsWithHttpScheme (url : String) : Bool :=
  strStartsWith (pyCasefold url) "http://" || strStartsWith (pyCasefold url) "https://"

/-- `True` exactly when the effect is a POST request (a key-creation call). -/
def Effect.isPost : Effect → Bool
  | .httpReq m _ _ => m = "POST"
  | _ => false

/-- `True` exactly when the effect is a write to a log file. -/
def Effect.isFileWrite : Effect → Bool
  | .fileAppend _ _ => true
  | _ => false

/-- The `i`-th `/`-separated segment of a URL counting from the end
(`segFromEnd url 0` is the last segment, `segFromEnd url 1` the
second-to-last); spec-side notion used to state the eligibility claim. -/
def segFromEnd (url : String) (i : Nat) : Option String :=
  (pySplitSlash url).reverse.get? i

/-- The eligibility test of the spec: at least one follower and the
second-to-last URL segment equal to the configured organisation. -/
def eligiblePred (ORG : String) (p : ProjectEntry) : Bool :=
  !p.followers.isEmpty && (segFromEnd p.vcs_url 1 == some ORG)

/-! ### Supporting lemmas -/

theorem json_of_loads (loads : String → Option Json) (r : Response) (v : Json)
    (h : loads r.body = some v) : Response.json loads r = v := by
  simp [Response.json, h]

theorem pyGetItem_keysList (ks : List CheckoutKey) :
    pyGetItem (keysListJson ks) "items" = .ok (.arr (ks.map keyJson)) := by
  simp [keysListJson, pyGetItem, List.lookup]

theorem preferredRsaCheck_keyJson (k : CheckoutKey) :
    preferredRsaCheck (keyJson k) =
      .ok (k.preferred && strStartsWith k.public_key "ssh-rsa") := by
  simp [preferredRsaCheck, keyJson, pyGetItem, List.lookup, pyTruthy, pyStartswith]
  cases k.preferred <;> simp

theorem processProject_keys (ORG VCS project : String)
    (loads : String → Option Json) (listResp createResp : Response)
    (k : CheckoutKey) (rest : List CheckoutKey)
    (h0 : listResp.error_count = 0)
    (hb : loads listResp.body = some (keysListJson (k :: rest))) :
    processProject ORG VCS project loads listResp createResp =
      if k.preferred && strStartsWith k.public_key "ssh-rsa" then
        (Effect.httpReq "GET" (checkoutKeyUrl VCS ORG project) none ::
          (doRotation ORG VCS project loads (keysListJson (k :: rest)) (keyJson k) createResp).1,
         (doRotation ORG VCS project loads (keysListJson (k :: rest)) (keyJson k) createResp).2)
      else
        ([.httpReq "GET" (checkoutKeyUrl VCS ORG project) none,
          .printLine (project ++ " prefered key is not ssh-rsa, no action taken.")],
         .next) := by
  simp only [processProject, h0, json_of_loads loads listResp _ hb, pyGetItem_keysList,
    preferredRsaCheck_keyJson, List.map_cons, pyLen, pyIndexZero, List.length_cons]
  simp only [Nat.succ_ne_zero, if_false, lt_irrefl, gt_iff_lt, Nat.lt_irrefl]
  cases hc : (k.preferred && strStartsWith k.public_key "ssh-rsa") <;> simp

theorem doRotation_keyJson (ORG VCS project : String) (loads : String → Option Json)
    (parsed : Json) (k : CheckoutKey) (createResp : Response) :
    doRotation ORG VCS project loads parsed (keyJson k) createResp =
      (let payload : List (String × String) :=
         if k.type = "github-user-key" then [("type", "user-key")]
         else [("type", "deploy-key")]
       let url := checkoutKeyUrl VCS ORG project
       let effs : List Effect := [
         .printLine ("ssh-rsa key found as prefered ssh key for " ++ project),
         .printLine (project ++ " old preffered key: old_keys_" ++ ORG ++ ".txt"),
         .fileAppend ("old_keys_" ++ ORG ++ ".txt") (.rawResponse parsed),
         .printLine ("Creating key for " ++ project ++ " logging new key to new_keys_"
                     ++ ORG ++ ".txt"),
         .httpReq "POST" url (some payload)]
       if createResp.status = 403 then
         (effs ++ [.printLine ("skipping project: " ++ project
                   ++ " as unable to create new key. url: " ++ url)], .next)
       else if createResp.error_count > 0 then
         (effs, .fatal (.errCreatingKey createResp url))
       else
         (effs ++ [.fileAppend ("new_keys_" ++ ORG ++ ".txt")
                     (.newKeyLine project (Response.json loads createResp))], .next)) := by
  simp [doRotation, keyJson, pyGetItem, List.lookup, pyEqStr]

theorem doRotation_keyJson_hasPost (ORG VCS project : String)
    (loads : String → Option Json) (parsed : Json) (k : CheckoutKey)
    (createResp : Response) :
    (doRotation ORG VCS project loads parsed (keyJson k) createResp).1.any
      Effect.isPost = true := by
  rw [doRotation_keyJson]
  by_cases h1 : createResp.status = 403 <;>
    by_cases h2 : createResp.error_count > 0 <;>
      simp [h1, h2, Effect.isPost]

/-! ### Claim theorems -/

/-- C1: for an eligible project whose checkout-key listing succeeds with a
non-empty key list, a key-creation POST is issued iff the first key is
preferred and its public key starts with `ssh-rsa`; the keys after the first
do not influence that decision, and when the condition fails the iteration
performs no rotation call and no log write (its whole trace is the GET and an
informational print, and it moves on without raising). -/
theorem first_key_decides_rotation_post (ORG VCS project : String)
    (loads : String → Option Json)
    (listResp listResp' createResp createResp' : Response)
    (k : CheckoutKey) (rest rest' : List CheckoutKey)
    (h0 : listResp.error_count = 0) (h0' : listResp'.error_count = 0)
    (hb : loads listResp.body = some (keysListJson (k :: rest)))
    (hb' : loads listResp'.body = some (keysListJson (k :: rest'))) :
    (((processProject ORG VCS project loads listResp createResp).1.any Effect.isPost = true)
        ↔ (k.preferred = true ∧ strStartsWith k.public_key "ssh-rsa" = true)) ∧
    ((processProject ORG VCS project loads listResp createResp).1.any Effect.isPost
       = (processProject ORG VCS project loads listResp' createResp').1.any Effect.isPost) ∧
    (¬(k.preferred = true ∧ strStartsWith k.public_key "ssh-rsa" = true) →
       processProject ORG VCS project loads listResp createResp =
         ([.httpReq "GET" (checkoutKeyUrl VCS ORG project) none,
           .printLine (project ++ " prefered key is not ssh-rsa, no action taken.")],
          .next)) := by
  rw [processProject_keys ORG VCS project loads listResp createResp k rest h0 hb,
      processProject_keys ORG VCS project loads listResp' createResp' k rest' h0' hb']
  cases hc : (k.preferred && strStartsWith k.public_key "ssh-rsa") with
  | true =>
    simp only [if_pos rfl, if_true]
    rw [Bool.and_eq_true] at hc
    simp [doRotation_keyJson_hasPost, Effect.isPost, hc]
  | false =>
    rw [Bool.and_eq_false_iff] at hc
    simp [Effect.isPost]
    intro h1
    rcases hc with h | h
    · rw [h1] at h; exact absurd h (by simp)
    · exact h

/-- C4: when a rotation is performed, the POST body's `type` is `user-key`
when the legacy preferred key's type is `github-user-key`, and `deploy-key`
for every other legacy type. -/
theorem rotation_payload_type (ORG VCS project : String)
    (loads : String → Option Json) (listResp createResp : Response)
    (k : CheckoutKey) (rest : List CheckoutKey)
    (h0 : listResp.error_count = 0)
    (hb : loads listResp.body = some (keysListJson (k :: rest)))
    (hpref : k.preferred = true)
    (hrsa : strStartsWith k.public_key "ssh-rsa" = true) :
    Effect.httpReq "POST" (checkoutKeyUrl VCS ORG project)
      (some (if k.type = "github-user-key" then [("type", "user-key")]
             else [("type", "deploy-key")]))
      ∈ (processProject ORG VCS project loads listResp createResp).1 := by
  rw [processProject_keys ORG VCS project loads listResp createResp k rest h0 hb]
  simp only [hpref, hrsa, Bool.and_self, if_true, doRotation_keyJson]
  by_cases h1 : createResp.status = 403 <;>
    by_cases h2 : createResp.error_count > 0 <;>
      simp [h1, h2]

/-- C3: once a rotation is attempted, a key-creation response with status 403
ends the iteration with `next` (no exception) and the run's outcome is that
of the remaining projects, while a response with a nonzero error counter and
any other status aborts the whole run with the fatal key-creation error. -/
theorem creation_403_skips_else_aborts (ORG VCS project : String)
    (loads : String → Option Json) (listResp createResp : Response)
    (k : CheckoutKey) (rest : List CheckoutKey)
    (restItems : List (String × Response × Response))
    (h0 : listResp.error_count = 0)
    (hb : loads listResp.body = some (keysListJson (k :: rest)))
    (hpref : k.preferred = true)
    (hrsa : strStartsWith k.public_key "ssh-rsa" = true) :
    (createResp.status = 403 →
      (processProject ORG VCS project loads listResp createResp).2 = .next ∧
      (mainLoop ORG VCS loads ((project, listResp, createResp) :: restItems)).2 =
        (mainLoop ORG VCS loads restItems).2) ∧
    (createResp.status ≠ 403 → createResp.error_count > 0 →
      (mainLoop ORG VCS loads ((project, listResp, createResp) :: restItems)).2 =
        .fatalError (.errCreatingKey createResp (checkoutKeyUrl VCS ORG project))) := by
  have hp := processProject_keys ORG VCS project loads listResp createResp k rest h0 hb
  rw [hpref, hrsa] at hp
  simp only [Bool.and_self, if_true] at hp
  rw [doRotation_keyJson] at hp
  constructor
  · intro h403
    rw [if_pos h403] at hp
    constructor
    · rw [hp]
    · simp [mainLoop, hp]
  · intro hne hcount
    rw [if_neg hne, if_pos hcount] at hp
    simp [mainLoop, hp]

/-- C9: a checkout-key listing with a zero error counter whose decoded body
does not support the `['items']` subscript makes the iteration end in an
uncaught Python exception that aborts the whole run; the exception is a
`TypeError` when the body is not valid JSON (the decoder then yields `""`)
and a `KeyError` when it is a JSON object without an `"items"` key. -/
theorem items_subscript_uncaught (ORG VCS project : String)
    (loads : String → Option Json) (listResp createResp : Response)
    (restItems : List (String × Response × Response)) (e : PyExn)
    (h0 : listResp.error_count = 0)
    (hbad : pyGetItem (Response.json loads listResp) "items" = .error e) :
    processProject ORG VCS project loads listResp createResp =
      ([.httpReq "GET" (checkoutKeyUrl VCS ORG project) none], .exn e) ∧
    (mainLoop ORG VCS loads ((project, listResp, createResp) :: restItems)).2 =
      .uncaughtExn e ∧
    (loads listResp.body = none → e = .typeError) ∧
    (∀ fields, loads listResp.body = some (.obj fields) →
      fields.lookup "items" = none → e = .keyError) := by
  have hp : processProject ORG VCS project loads listResp createResp =
      ([.httpReq "GET" (checkoutKeyUrl VCS ORG project) none], .exn e) := by
    simp [processProject, h0, hbad]
  refine ⟨hp, ?_, ?_, ?_⟩
  · simp [mainLoop, hp]
  · intro hn
    have hj : Response.json loads listResp = .str "" := by simp [Response.json, hn]
    rw [hj] at hbad
    simp [pyGetItem] at hbad
    exact hbad.symm
  · intro fields hsome hlookup
    have hj : Response.json loads listResp = .obj fields := by
      simp [Response.json, hsome]
    rw [hj] at hbad
    simp [pyGetItem, hlookup] at hbad
    exact hbad.symm

theorem first_key_decides_rotation_post_witness :
    (Response.mk "keys" [] 200 0).error_count = 0 ∧
    (fun _ : String => some (keysListJson [⟨true, "ssh-rsa AAAA", "deploy-key"⟩]))
        (Response.mk "keys" [] 200 0).body =
      some (keysListJson [⟨true, "ssh-rsa AAAA", "deploy-key"⟩]) ∧
    (processProject "acme" "github" "widgets"
        (fun _ : String => some (keysListJson [⟨true, "ssh-rsa AAAA", "deploy-key"⟩]))
        (Response.mk "keys" [] 200 0) (Response.mk "newkey" [] 201 0)).1.any
      Effect.isPost = true :=
  ⟨rfl, rfl,
    (first_key_decides_rotation_post "acme" "github" "widgets"
      (fun _ : String => some (keysListJson [⟨true, "ssh-rsa AAAA", "deploy-key"⟩]))
      (Response.mk "keys" [] 200 0) (Response.mk "keys" [] 200 0)
      (Response.mk "newkey" [] 201 0) (Response.mk "newkey" [] 201 0)
      ⟨true, "ssh-rsa AAAA", "deploy-key"⟩ [] []
      rfl rfl rfl rfl).1.mpr ⟨rfl, by decide⟩⟩

theorem creation_403_skips_else_aborts_witness :
    (Response.mk "keys" [] 200 0).error_count = 0 ∧
    (Response.mk "Forbidden" [] 403 1).status = 403 ∧
    ((mainLoop "acme" "github"
        (fun _ : String => some (keysListJson [⟨true, "ssh-rsa AAAA", "deploy-key"⟩]))
        [("widgets", Response.mk "keys" [] 200 0, Response.mk "Forbidden" [] 403 1)]).2 =
      (mainLoop "acme" "github"
        (fun _ : String => some (keysListJson [⟨true, "ssh-rsa AAAA", "deploy-key"⟩]))
        []).2) :=
  ⟨rfl, rfl,
    ((creation_403_skips_else_aborts "acme" "github" "widgets"
      (fun _ : String => some (keysListJson [⟨true, "ssh-rsa AAAA", "deploy-key"⟩]))
      (Response.mk "keys" [] 200 0) (Response.mk "Forbidden" [] 403 1)
      ⟨true, "ssh-rsa AAAA", "deploy-key"⟩ [] []
      rfl rfl rfl (by decide)).1 rfl).2⟩

theorem rotation_payload_type_witness :
    (Response.mk "keys" [] 200 0).error_count = 0 ∧
    Effect.httpReq "POST" (checkoutKeyUrl "github" "acme" "widgets")
      (some (if ("deploy-key" : String) = "github-user-key" then [("type", "user-key")]
             else [("type", "deploy-key")]))
      ∈ (processProject "acme" "github" "widgets"
          (fun _ : String => some (keysListJson [⟨true, "ssh-rsa AAAA", "deploy-key"⟩]))
          (Response.mk "keys" [] 200 0) (Response.mk "newkey" [] 201 0)).1 :=
  ⟨rfl,
    rotation_payload_type "acme" "github" "widgets"
      (fun _ : String => some (keysListJson [⟨true, "ssh-rsa AAAA", "deploy-key"⟩]))
      (Response.mk "keys" [] 200 0) (Response.mk "newkey" [] 201 0)
      ⟨true, "ssh-rsa AAAA", "deploy-key"⟩ []
      rfl rfl rfl (by decide)⟩

theorem items_subscript_uncaught_witness :
    (Response.mk "not json" [] 200 0).error_count = 0 ∧
    pyGetItem (Response.json (fun _ : String => none) (Response.mk "not json" [] 200 0))
      "items" = .error .typeError ∧
    (mainLoop "acme" "github" (fun _ : String => none)
      [("widgets", Response.mk "not json" [] 200 0, Response.mk "" [] 201 0)]).2 =
      .uncaughtExn .typeError :=
  ⟨rfl, rfl,
    (items_subscript_uncaught "acme" "github" "widgets" (fun _ : String => none)
      (Response.mk "not json" [] 200 0) (Response.mk "" [] 201 0) [] .typeError
      rfl rfl).2.1⟩

/-- C7: the `json` accessor yields the parsed JSON value when the body
decodes, and the empty string when decoding fails; as a total function it
raises nothing for any body. -/
theorem response_json_never_raises (loads : String → Option Json) (r : Response) :
    (∀ v, loads r.body = some v → Response.json loads r = v) ∧
    (loads r.body = none → Response.json loads r = .str "") := by
  constructor
  · intro v h; simp [Response.json, h]
  · intro h; simp [Response.json, h]

theorem response_json_never_raises_witness :
    (fun s : String => if s = "[1]" then some (Json.arr [.num 1]) else none) "[1]" =
      some (Json.arr [.num 1]) ∧
    Response.json (fun s : String => if s = "[1]" then some (Json.arr [.num 1]) else none)
      (Response.mk "[1]" [] 200 0) = .arr [.num 1] ∧
    Response.json (fun s : String => if s = "[1]" then some (Json.arr [.num 1]) else none)
      (Response.mk "oops" [] 200 0) = .str "" :=
  ⟨rfl,
    (response_json_never_raises
      (fun s : String => if s = "[1]" then some (Json.arr [.num 1]) else none)
      (Response.mk "[1]" [] 200 0)).1 _ rfl,
    (response_json_never_raises
      (fun s : String => if s = "[1]" then some (Json.arr [.num 1]) else none)
      (Response.mk "oops" [] 200 0)).2 rfl⟩

/-- C6: when `urlopen` raises an `HTTPError` the wrapper does not raise but
returns a `Response` whose body is the reason phrase, whose headers and
status are the error's, and whose error counter is the caller's plus one; on
a non-error outcome the counter is zero. -/
theorem request_wraps_http_error (url : String)
    (data params headers : List (String × String)) (method : String)
    (daj : Bool) (ec : Nat)
    (hguard : strStartsWith (pyCasefold url) "http" = true) :
    (∀ code reason hs,
      request url data params headers method daj ec (.httpError code reason hs) =
        .ok (buildRequest url data params headers method daj,
             { body := reason, headers := hs, status := code, error_count := ec + 1 })) ∧
    (∀ status hs body,
      request url data params headers method daj ec (.success status hs body) =
        .ok (buildRequest url data params headers method daj,
             { body := body, headers := hs, status := status, error_count := 0 })) := by
  constructor <;> · intro a b c; simp [request, hguard, netResponse]

theorem request_wraps_http_error_witness :
    strStartsWith (pyCasefold "https://circleci.com/api") "http" = true ∧
    request "https://circleci.com/api" [] [] [] "GET" true 2
        (.httpError 500 "Internal Server Error" []) =
      .ok (buildRequest "https://circleci.com/api" [] [] [] "GET" true,
           { body := "Internal Server Error", headers := [], status := 500,
             error_count := 3 }) :=
  ⟨by decide,
    (request_wraps_http_error "https://circleci.com/api" [] [] [] "GET" true 2
      (by decide)).1 500 "Internal Server Error" []⟩

/-- C2 counterexample: `"httpevil://host"` does not begin with an HTTP(S)
scheme, yet the request function does not raise the guard error — it builds
and issues the request. -/
theorem url_guard_counterexample :
    startsWithHttpScheme "httpevil://host" = false ∧
    request "httpevil://host" [] [] [] "GET" true 0 (.success 200 [] "{}") =
      .ok (buildRequest "httpevil://host" [] [] [] "GET" true,
           netResponse 0 (.success 200 [] "{}")) := by
  constructor
  · decide
  · rfl

/-- C2 amended: the request function raises (before any network access) iff
the casefolded URL does not start with the four-character literal `http`;
every URL that does begin with an HTTP(S) scheme therefore passes the guard,
but so do other schemes whose name merely starts with `http`. -/
theorem url_guard_literal_http (url : String)
    (data params headers : List (String × String)) (method : String)
    (daj : Bool) (ec : Nat) (net : HttpOutcome) :
    (request url data params headers method daj ec net =
        .error "Incorrect and possibly insecure protocol in url" ↔
      strStartsWith (pyCasefold url) "http" = false) ∧
    (startsWithHttpScheme url = true →
      request url data params headers method daj ec net =
        .ok (buildRequest url data params headers method daj, netResponse ec net)) := by
  have hmain : ∀ b : Bool, strStartsWith (pyCasefold url) "http" = b →
      (request url data params headers method daj ec net =
        .error "Incorrect and possibly insecure protocol in url" ↔ b = false) := by
    intro b hb
    cases b with
    | false => simp [request, hb]
    | true => simp [request, hb]
  constructor
  · exact hmain _ rfl
  · intro h
    have hg : strStartsWith (pyCasefold url) "http" = true := by
      unfold startsWithHttpScheme at h
      rw [Bool.or_eq_true] at h
      unfold strStartsWith at *
      rw [List.isPrefixOf_iff_prefix]
      rcases h with h | h <;> rw [List.isPrefixOf_iff_prefix] at h
      · exact List.IsPrefix.trans (by decide) h
      · exact List.IsPrefix.trans (by decide) h
    simp [request, hg]

theorem url_guard_literal_http_witness :
    startsWithHttpScheme "HTTPS://circleci.com" = true ∧
    request "HTTPS://circleci.com" [] [] [] "GET" true 0 (.success 200 [] "{}") =
      .ok (buildRequest "HTTPS://circleci.com" [] [] [] "GET" true,
           netResponse 0 (.success 200 [] "{}")) ∧
    (request "ftp://host" [] [] [] "GET" true 0 (.success 200 [] "{}") =
        .error "Incorrect and possibly insecure protocol in url" ↔
      strStartsWith (pyCasefold "ftp://host") "http" = false) :=
  ⟨by decide,
    (url_guard_literal_http "HTTPS://circleci.com" [] [] [] "GET" true 0
      (.success 200 [] "{}")).2 (by decide),
    (url_guard_literal_http "ftp://host" [] [] [] "GET" true 0
      (.success 200 [] "{}")).1⟩

theorem lookup_some_mem {l : List (String × String)} {k v : String}
    (h : l.lookup k = some v) : (k, v) ∈ l := by
  induction l with
  | nil => simp [List.lookup] at h
  | cons a t ih =>
    obtain ⟨a1, a2⟩ := a
    rw [List.lookup_cons] at h
    cases hbeq : (k == a1) with
    | true =>
      rw [hbeq] at h
      simp only [Option.some.injEq] at h
      rw [eq_of_beq hbeq, h]
      exact List.mem_cons_self _ _
    | false =>
      rw [hbeq] at h
      exact List.mem_cons_of_mem _ (ih h)

theorem lookup_eq_some_of_mem_nodup {l : List (String × String)} {k v : String}
    (hnd : (l.map Prod.fst).Nodup) (hm : (k, v) ∈ l) : l.lookup k = some v := by
  induction l with
  | nil => simp at hm
  | cons a t ih =>
    obtain ⟨a1, a2⟩ := a
    simp only [List.map_cons, List.nodup_cons] at hnd
    rcases List.mem_cons.mp hm with he | ht
    · obtain ⟨rfl, rfl⟩ := Prod.mk.injEq .. ▸ he
      simp [List.lookup_cons]
    · have hk : k ≠ a1 := by
        rintro rfl
        exact hnd.1 (List.mem_map.mpr ⟨(k, v), ht, rfl⟩)
      rw [List.lookup_cons]
      simp only [beq_eq_false_iff_ne.mpr hk]
      exact ih hnd.2 ht

theorem mem_val_unique {l : List (String × String)} {k x y : String}
    (hnd : (l.map Prod.fst).Nodup) (hx : (k, x) ∈ l) (hy : (k, y) ∈ l) : x = y := by
  have h1 := lookup_eq_some_of_mem_nodup hnd hx
  have h2 := lookup_eq_some_of_mem_nodup hnd hy
  rw [h1] at h2
  exact Option.some.injEq .. ▸ h2.symm ▸ rfl

theorem mem_dictMerge_right {a b : List (String × String)} {k v : String}
    (hnd : (b.map Prod.fst).Nodup) (hm : (k, v) ∈ b) : (k, v) ∈ dictMerge a b := by
  unfold dictMerge
  rw [List.mem_append]
  cases hla : a.lookup k with
  | none =>
    right
    exact List.mem_filter.mpr ⟨hm, by simp [hla]⟩
  | some w =>
    left
    refine List.mem_map.mpr ⟨(k, w), lookup_some_mem hla, ?_⟩
    simp [lookup_eq_some_of_mem_nodup hnd hm]

theorem mem_dictMerge_val_right {a b : List (String × String)} {k vd v' : String}
    (hnd : (b.map Prod.fst).Nodup) (hm : (k, vd) ∈ b)
    (h : (k, v') ∈ dictMerge a b) : v' = vd := by
  unfold dictMerge at h
  rcases List.mem_append.mp h with h | h
  · obtain ⟨⟨w1, w2⟩, hw, heq⟩ := List.mem_map.mp h
    simp only [Prod.mk.injEq] at heq
    obtain ⟨rfl, hv⟩ := heq
    rw [lookup_eq_some_of_mem_nodup hnd hm] at hv
    simp at hv
    exact hv.symm
  · exact mem_val_unique hnd (List.mem_filter.mp h).1 hm

theorem buildRequest_get (url : String)
    (data params headers : List (String × String)) (method : String)
    (daj : Bool) (hm : pyUpper method = "GET") :
    buildRequest url data params headers method daj =
      { url := if !(dictMerge params data).isEmpty
               then url ++ "?" ++ urlencode "/" (dictMerge params data) else url,
        request_data := none,
        headers := dictMerge [("Accept", "application/json")] headers,
        method := "GET" } := by
  simp [buildRequest, hm]

/-- C8: for a `GET` call (any letter case of the method) the data mapping is
merged into the query parameters — every data entry appears, URL-encoded, as
one `k=v` component of the `&`-joined query string appended to the URL — and
the issued request carries no body. -/
theorem get_merges_data_into_query (url : String)
    (data params headers : List (String × String)) (method : String)
    (daj : Bool) (ec : Nat) (net : HttpOutcome)
    (hguard : strStartsWith (pyCasefold url) "http" = true)
    (hm : pyUpper method = "GET")
    (hnd : (data.map Prod.fst).Nodup) :
    request url data params headers method daj ec net =
      .ok (buildRequest url data params headers method daj, netResponse ec net) ∧
    (buildRequest url data params headers method daj).request_data = none ∧
    (buildRequest url data params headers method daj).url =
      (if !(dictMerge params data).isEmpty
       then url ++ "?" ++ String.intercalate "&"
              ((dictMerge params data).map (encodePair "/"))
       else url) ∧
    (∀ k v, (k, v) ∈ data → (k, v) ∈ dictMerge params data ∧
      encodePair "/" (k, v) ∈ (dictMerge params data).map (encodePair "/")) := by
  refine ⟨by simp [request, hguard], ?_, ?_, ?_⟩
  · rw [buildRequest_get url data params headers method daj hm]
  · rw [buildRequest_get url data params headers method daj hm]
    simp [urlencode]
  · intro k v hv
    have h1 : (k, v) ∈ dictMerge params data := mem_dictMerge_right hnd hv
    exact ⟨h1, List.mem_map.mpr ⟨(k, v), h1, rfl⟩⟩

theorem get_merges_data_into_query_witness :
    strStartsWith (pyCasefold "https://host/x") "http" = true ∧
    pyUpper "get" = "GET" ∧
    (buildRequest "https://host/x" [("type", "user-key")] [] [] "get" true).request_data
      = none ∧
    (buildRequest "https://host/x" [("type", "user-key")] [] [] "get" true).url =
      (if !(dictMerge [] [("type", "user-key")]).isEmpty
       then "https://host/x" ++ "?" ++ String.intercalate "&"
              ((dictMerge [] [("type", "user-key")]).map (encodePair "/"))
       else "https://host/x") :=
  ⟨by decide, by decide,
    (get_merges_data_into_query "https://host/x" [("type", "user-key")] [] [] "get"
      true 0 (.success 200 [] "{}") (by decide) (by decide) (by simp)).2.1,
    (get_merges_data_into_query "https://host/x" [("type", "user-key")] [] [] "get"
      true 0 (.success 200 [] "{}") (by decide) (by decide) (by simp)).2.2.1⟩

/-- C10: when the params mapping and the data mapping of a `GET` call both
define a key, the merged query mapping binds that key to the data value
(every binding of that key in the merge carries the data value, so the params
value is overridden and, when different, absent), and the query string
appended to the URL is the encoding of that merge. -/
theorem data_overrides_params_in_query (url : String)
    (data params headers : List (String × String)) (method : String)
    (daj : Bool) (k vp vd : String)
    (hm : pyUpper method = "GET")
    (hndd : (data.map Prod.fst).Nodup)
    (hp : (k, vp) ∈ params) (hd : (k, vd) ∈ data) :
    (k, vd) ∈ dictMerge params data ∧
    (∀ v', (k, v') ∈ dictMerge params data → v' = vd) ∧
    (vp ≠ vd → (k, vp) ∉ dictMerge params data) ∧
    (buildRequest url data params headers method daj).url =
      url ++ "?" ++ urlencode "/" (dictMerge params data) := by
  have h1 : (k, vd) ∈ dictMerge params data := mem_dictMerge_right hndd hd
  refine ⟨h1, fun v' hv => mem_dictMerge_val_right hndd hd hv, ?_, ?_⟩
  · intro hne hmem
    exact hne (mem_dictMerge_val_right hndd hd hmem)
  · rw [buildRequest_get url data params headers method daj hm]
    have : (dictMerge params data).isEmpty = false :=
      List.isEmpty_eq_false_iff_exists_mem.mpr ⟨_, h1⟩
    simp [this]

theorem data_overrides_params_in_query_witness :
    pyUpper "get" = "GET" ∧
    ("branch", "main") ∈ ([("branch", "main")] : List (String × String)) ∧
    ("branch", "dev") ∈ ([("branch", "dev")] : List (String × String)) ∧
    ("branch", "dev") ∈ dictMerge [("branch", "main")] [("branch", "dev")] ∧
    (("main" : String) ≠ "dev" →
      ("branch", "main") ∉ dictMerge [("branch", "main")] [("branch", "dev")]) :=
  ⟨by decide, by decide, by decide,
    (data_overrides_params_in_query "https://host/x" [("branch", "dev")]
      [("branch", "main")] [] "get" true "branch" "main" "dev"
      (by decide) (by decide) (by decide) (by decide)).1,
    (data_overrides_params_in_query "https://host/x" [("branch", "dev")]
      [("branch", "main")] [] "get" true "branch" "main" "dev"
      (by decide) (by decide) (by decide) (by decide)).2.2.1⟩

theorem pyNegIndex_ok (xs : List String) (i : Nat) (h1 : 1 ≤ i)
    (h2 : i ≤ xs.length) :
    pyNegIndex xs i = .ok ((xs.reverse.get? (i - 1)).getD "") := by
  have hget : xs.reverse.get? (i - 1) = some (xs.get ⟨xs.length - i, by omega⟩) := by
    have hi : i - 1 < xs.length := by omega
    rw [List.get?_eq_getElem?, List.getElem?_reverse (by simpa using hi)]
    have : xs.length - 1 - (i - 1) = xs.length - i := by omega
    rw [this, List.getElem?_eq_getElem (by omega)]
    simp [List.get_eq_getElem]
  rw [pyNegIndex, dif_pos ⟨h1, h2⟩, hget]
  rfl

/-- C5: the eligible set is exactly the projects with a non-empty follower
list whose second-to-last `/`-separated URL segment equals the configured
organisation (case-sensitive), listed by their last URL segment in order. -/
theorem eligible_iff_followed_and_org (ORG : String) (projects : List ProjectEntry)
    (hlen : ∀ p ∈ projects, 2 ≤ (pySplitSlash p.vcs_url).length) :
    filterProjects ORG projects =
      .ok ((projects.filter (eligiblePred ORG)).map
            (fun p => (segFromEnd p.vcs_url 0).getD "")) := by
  induction projects with
  | nil => simp [filterProjects]
  | cons p rest ih =>
    have h2 : 2 ≤ (pySplitSlash p.vcs_url).length := hlen p (List.mem_cons_self p rest)
    have hrest := ih (fun q hq => hlen q (List.mem_cons_of_mem p hq))
    rw [filterProjects]
    rw [pyNegIndex_ok _ 1 (by omega) (by omega), pyNegIndex_ok _ 2 (by omega) h2]
    rw [hrest]
    simp only [Bind.bind, Except.bind, Pure.pure, Except.pure]
    have hcond : (decide (p.followers.length > 0) &&
        decide (((pySplitSlash p.vcs_url).reverse.get? (2 - 1)).getD "" = ORG)) =
        eligiblePred ORG p := by
      obtain ⟨x, hx⟩ : ∃ x, (pySplitSlash p.vcs_url).reverse.get? 1 = some x := by
        rw [List.get?_eq_getElem?]
        exact ⟨_, List.getElem?_eq_getElem (by simpa using (by omega : 1 < (pySplitSlash p.vcs_url).length))⟩
      simp only [eligiblePred, segFromEnd, hx, show (2:Nat) - 1 = 1 from rfl,
        Option.getD_some]
      cases p.followers <;> by_cases hxe : x = ORG <;> simp [hxe]
    simp only [show (1:Nat) - 1 = 0 from rfl] at *
    rw [List.filter_cons]
    cases he : eligiblePred ORG p with
    | true =>
      rw [← hcond] at he  -- he : decide.. = true
      simp only [he]
      simp [segFromEnd]
    | false =>
      rw [← hcond] at he
      simp only [he]
      simp

theorem eligible_iff_followed_and_org_witness :
    (∀ p ∈ [ProjectEntry.mk "https://github.com/acme/widgets" [],
            ProjectEntry.mk "https://github.com/acme/gizmo" [Json.null]],
       2 ≤ (pySplitSlash p.vcs_url).length) ∧
    filterProjects "acme"
      [ProjectEntry.mk "https://github.com/acme/widgets" [],
       ProjectEntry.mk "https://github.com/acme/gizmo" [Json.null]] = .ok ["gizmo"] :=
  ⟨by decide,
    (eligible_iff_followed_and_org "acme"
      [ProjectEntry.mk "https://github.com/acme/widgets" [],
       ProjectEntry.mk "https://github.com/acme/gizmo" [Json.null]]
      (by decide)).trans (by rfl)⟩
